import Mathlib

/-!
Verification development for the ExamTrend AI repository.

The repository consists of a React/TypeScript frontend (src/types.ts,
src/App.tsx, src/components, the taxonomy data, the Gemini prompt service and
the HTTP API client) together with the SQLite schema of its Python backend
(src/backend/database/schema.sql).  The backend analytics engine
(backend/engine: frequency_analyzer.py, trend_predictor.py, the confidence
scoring and report assembly) is part of the repository but its sources are not
available here; definitions below whose doc comment starts with
"Modelled from the spec:" stand for that missing engine code and are written
from the specification's words.  All other definitions are translated from the
TypeScript/SQL sources.
-/

namespace ExamTrend

/-- SearchParams from types.ts: the scope of one analysis request
(exam, level, subject, chapter). -/
structure SearchParams where
  exam : String
  level : String
  subject : String
  chapter : String
deriving DecidableEq, Repr

/-- YearData from types.ts: one row of yearWiseData. -/
structure YearData where
  year : Int
  questionCount : Nat
  topics : List String
deriving DecidableEq, Repr

/-- Trend labels from types.ts: 'up' | 'down' | 'stable'. -/
inductive Trend where
  | up
  | down
  | stable
deriving DecidableEq, Repr

/-- TopicPrediction from types.ts. The wire format carries probability as a
number (an integer percentage in the Gemini response schema). -/
structure TopicPrediction where
  topic : String
  probability : ℚ
  logic : String
  trend : Trend
deriving DecidableEq, Repr

/-- SourceDocument from types.ts. -/
structure SourceDocument where
  year : Int
  examName : String
  sourceLabel : String
  url : String
deriving DecidableEq, Repr

/-- AnalysisResult from types.ts (lines 35-41): exactly the five declared
fields; the interface declares no confidenceScore and no dataQuality field. -/
structure AnalysisResult where
  yearWiseData : List YearData
  predictions : List TopicPrediction
  sourceDocuments : List SourceDocument
  totalQuestionsAnalyzed : Nat
  mostFrequentTopic : String
deriving DecidableEq, Repr

/-- SavedAnalysis from types.ts: one locally saved report. -/
structure SavedAnalysis where
  id : String
  timestamp : Nat
  params : SearchParams
  result : AnalysisResult
deriving DecidableEq, Repr

/-! ### Saved-analyses logic (src/App.tsx) -/

/-- sameScope mirrors the four field comparisons inside isAlreadySaved
(App.tsx lines 35-40): item.params.exam === params.exam and likewise for
level, subject and chapter. -/
def sameScope (a b : SearchParams) : Bool :=
  a.exam == b.exam && a.level == b.level && a.subject == b.subject && a.chapter == b.chapter

/-- isAlreadySaved from App.tsx (lines 33-41): false when no parameters are
set, otherwise savedAnalyses.some of the four-field comparison. -/
def isAlreadySaved (params : Option SearchParams) (savedAnalyses : List SavedAnalysis) : Bool :=
  match params with
  | none => false
  | some p => savedAnalyses.any fun item => sameScope item.params p

/-- App state touched by handleSave: the savedAnalyses React state and the
parsed content of the localStorage key examTrendSaved (serialization of the
list by JSON.stringify is abstracted to the list itself). -/
structure SaveState where
  savedAnalyses : List SavedAnalysis
  storage : List SavedAnalysis
deriving DecidableEq, Repr

/-- mkSavedAnalysis: the newSave object built in handleSave, with
Date.now() passed in as now (id := now.toString(), timestamp := now). -/
def mkSavedAnalysis (now : Nat) (p : SearchParams) (r : AnalysisResult) : SavedAnalysis :=
  { id := toString now, timestamp := now, params := p, result := r }

/-- handleSave from App.tsx (lines 60-81): returns unchanged when result or
params is missing or when the scope is already saved; otherwise prepends
exactly one new entry to the list and writes the updated list to storage. -/
def handleSave (result : Option AnalysisResult) (params : Option SearchParams)
    (now : Nat) (st : SaveState) : SaveState :=
  match result, params with
  | some r, some p =>
    if isAlreadySaved (some p) st.savedAnalyses then st
    else
      let updatedList := mkSavedAnalysis now p r :: st.savedAnalyses
      { savedAnalyses := updatedList, storage := updatedList }
  | _, _ => st

/-- scopesDistinct l is true when no two entries of l share the same
(exam, level, subject, chapter) parameters. -/
def scopesDistinct : List SavedAnalysis → Bool
  | [] => true
  | x :: xs => (!xs.any fun y => sameScope x.params y.params) && scopesDistinct xs

theorem sameScope_iff (a b : SearchParams) : sameScope a b = true ↔ a = b := by
  cases a
  cases b
  simp [sameScope, SearchParams.mk.injEq, and_assoc]

theorem sameScope_comm (a b : SearchParams) : sameScope a b = sameScope b a := by
  by_cases h : a = b
  · subst h; rfl
  · have h1 : sameScope a b = false := by
      cases hs : sameScope a b
      · rfl
      · exact absurd ((sameScope_iff a b).mp hs) h
    have h2 : sameScope b a = false := by
      cases hs : sameScope b a
      · rfl
      · exact absurd ((sameScope_iff b a).mp hs).symm h
    rw [h1, h2]

/-- Claim C10: the saved-analyses list never contains two entries with the same
(exam, level, subject, chapter) parameters: handleSave keeps the
pairwise-distinct-scope invariant, and it behaves as follows — when the current
parameters match an already-saved entry the state (list and storage) is
returned unchanged, otherwise exactly one new entry is prepended to the list,
the existing entries are left unchanged, and the storage receives the same
updated list. -/
theorem handleSave_preserves_distinct_scopes
    (r : AnalysisResult) (p : SearchParams) (now : Nat) (st : SaveState)
    (hnodup : scopesDistinct st.savedAnalyses = true) :
    scopesDistinct (handleSave (some r) (some p) now st).savedAnalyses = true ∧
    handleSave (some r) (some p) now st =
      (if isAlreadySaved (some p) st.savedAnalyses = true then st
       else { savedAnalyses := mkSavedAnalysis now p r :: st.savedAnalyses
              storage := mkSavedAnalysis now p r :: st.savedAnalyses }) := by
  by_cases h : isAlreadySaved (some p) st.savedAnalyses = true
  · constructor
    · simp only [handleSave, h, if_true]
      exact hnodup
    · simp only [handleSave, h, if_true, if_pos]
  · have hfalse : isAlreadySaved (some p) st.savedAnalyses = false := by
      cases hv : isAlreadySaved (some p) st.savedAnalyses
      · rfl
      · exact absurd hv h
    constructor
    · simp only [handleSave, hfalse, Bool.false_eq_true, if_false]
      have hany : (st.savedAnalyses.any fun item => sameScope item.params p) = false := by
        simpa [isAlreadySaved] using hfalse
      have hnew : (st.savedAnalyses.any fun y => sameScope p y.params) = false := by
        rw [List.any_eq_false] at hany ⊢
        intro y hy
        rw [sameScope_comm]
        exact hany y hy
      simp only [scopesDistinct, mkSavedAnalysis]
      rw [hnew]
      simp only [Bool.not_false, Bool.true_and]
      exact hnodup
    · simp only [handleSave, hfalse, Bool.false_eq_true, if_false]

/-- Witness for Claim C10 at a concrete state: an empty saved list satisfies
the invariant, and saving a concrete report prepends exactly one entry. -/
theorem handleSave_preserves_distinct_scopes_witness :
    scopesDistinct ([] : List SavedAnalysis) = true ∧
    (scopesDistinct (handleSave
        (some { yearWiseData := [], predictions := [], sourceDocuments := [],
                totalQuestionsAnalyzed := 0, mostFrequentTopic := "Optics" })
        (some { exam := "JEE Mains", level := "Class 12",
                subject := "Physics", chapter := "Optics" })
        7 { savedAnalyses := [], storage := [] }).savedAnalyses = true ∧
     handleSave
        (some { yearWiseData := [], predictions := [], sourceDocuments := [],
                totalQuestionsAnalyzed := 0, mostFrequentTopic := "Optics" })
        (some { exam := "JEE Mains", level := "Class 12",
                subject := "Physics", chapter := "Optics" })
        7 { savedAnalyses := [], storage := [] } =
      (if isAlreadySaved
            (some { exam := "JEE Mains", level := "Class 12",
                    subject := "Physics", chapter := "Optics" })
            ([] : List SavedAnalysis) = true then
         { savedAnalyses := [], storage := [] }
       else
         { savedAnalyses := [mkSavedAnalysis 7
              { exam := "JEE Mains", level := "Class 12",
                subject := "Physics", chapter := "Optics" }
              { yearWiseData := [], predictions := [], sourceDocuments := [],
                totalQuestionsAnalyzed := 0, mostFrequentTopic := "Optics" }]
           storage := [mkSavedAnalysis 7
              { exam := "JEE Mains", level := "Class 12",
                subject := "Physics", chapter := "Optics" }
              { yearWiseData := [], predictions := [], sourceDocuments := [],
                totalQuestionsAnalyzed := 0, mostFrequentTopic := "Optics" }] })) :=
  ⟨rfl, handleSave_preserves_distinct_scopes _ _ 7 { savedAnalyses := [], storage := [] } rfl⟩

/-! ### API client (src/services/apiClient.ts, generateAnalysis) -/

/-- Parse status of the body of a non-ok HTTP response, as consumed by
response.json().catch in generateAnalysis (apiClient): either the body is not
valid JSON (the catch substitutes the object with detail 'Analysis failed'),
or it parses but has no truthy detail field, or it carries a nonempty string
detail. -/
inductive ErrorBody where
  | unparseable
  | withoutDetail
  | withDetail (d : String)
deriving DecidableEq, Repr

/-- Outcome of the fetch call in generateAnalysis (apiClient): the fetch
itself rejects with an Error carrying msg, or a response arrives that is not
ok, or an ok response arrives whose body either parses to an AnalysisResult
or fails to parse with an Error carrying msg. -/
inductive HttpOutcome where
  | netError (msg : String)
  | badResponse (status : Nat) (statusText : String) (body : ErrorBody)
  | okResponse (parsed : Except String AnalysisResult)

/-- badResponseMessage: the message of the Error thrown inside the try block
for a non-ok response — error.detail when truthy, the fallback detail from
the rejected body parse, or the HTTP status line. -/
def badResponseMessage (status : Nat) (statusText : String) : ErrorBody → String
  | .unparseable => "Analysis failed"
  | .withoutDetail => "HTTP " ++ toString status ++ ": " ++ statusText
  | .withDetail d => d

/-- connectionErrorMessage: the message thrown by the catch block when the
caught error's message mentions fetch. -/
def connectionErrorMessage (baseUrl : String) : String :=
  "Unable to connect to the analysis server. Make sure the backend is running at " ++ baseUrl

/-- charsPrefix ns hs is true when ns is a prefix of hs. -/
def charsPrefix : List Char → List Char → Bool
  | [], _ => true
  | _ :: _, [] => false
  | a :: as, b :: bs => a == b && charsPrefix as bs

/-- charsContain ns hs is true when ns occurs contiguously inside hs. -/
def charsContain (ns : List Char) : List Char → Bool
  | [] => ns.isEmpty
  | b :: bs => charsPrefix ns (b :: bs) || charsContain ns bs

/-- mentionsFetch models error.message.includes of the string fetch in the
catch block of generateAnalysis (apiClient). -/
def mentionsFetch (msg : String) : Bool :=
  charsContain "fetch".data msg.data

/-- mapClientError: the catch block of generateAnalysis (apiClient) — any
caught Error whose message contains fetch is replaced by the connection
failure message, every other Error is rethrown unchanged. -/
def mapClientError (baseUrl msg : String) : String :=
  if mentionsFetch msg then connectionErrorMessage baseUrl else msg

/-- generateAnalysis from apiClient.ts (lines 124-153), as a function of the
fetch outcome: a non-ok response makes the try block throw the detail-or-status
Error, a network error or body-parse error is the caught Error itself, and
every caught Error is filtered through the catch block; only an ok response
with a parsed body resolves with a result. -/
def generateAnalysisClient (baseUrl : String) : HttpOutcome → Except String AnalysisResult
  | .netError msg => .error (mapClientError baseUrl msg)
  | .badResponse status statusText body =>
      .error (mapClientError baseUrl (badResponseMessage status statusText body))
  | .okResponse (.error msg) => .error (mapClientError baseUrl msg)
  | .okResponse (.ok r) => .ok r

/-- isFailureOutcome: the failures quantified over by the claim — the fetch
itself failed or the HTTP response is not ok. -/
def isFailureOutcome : HttpOutcome → Bool
  | .netError _ => true
  | .badResponse _ _ _ => true
  | .okResponse _ => false

/-- rawErrorMessage: the message of the Error reaching the catch block for a
failure outcome. -/
def rawErrorMessage : HttpOutcome → String
  | .netError msg => msg
  | .badResponse status statusText body => badResponseMessage status statusText body
  | .okResponse _ => ""

/-- exceptIsOk: whether the client call resolved with a result. -/
def exceptIsOk : Except String AnalysisResult → Bool
  | .ok _ => true
  | .error _ => false

/-- Counterexample to Claim C9: a non-ok response whose parsed server detail
mentions the word fetch does not surface that detail — the catch block of
generateAnalysis replaces it with the connection-failure message, because the
substring test error.message.includes applies to every caught Error, not only
to network errors. -/
theorem generateAnalysisClient_swallows_fetch_detail :
    generateAnalysisClient "http://localhost:8000/api"
        (.badResponse 500 "Internal Server Error"
          (.withDetail "Could not fetch questions for this chapter")) =
      .error (connectionErrorMessage "http://localhost:8000/api") ∧
    (connectionErrorMessage "http://localhost:8000/api"
        == "Could not fetch questions for this chapter") = false := by
  constructor
  · rfl
  · decide

/-- Claim C9 (amended): generateAnalysis never resolves with a result when the
HTTP response is not ok or the fetch itself fails; in every such case it
yields an Error whose message is the raw message of the failure (the server's
parsed detail, the fallback detail, the HTTP status line, or the network
error's own message) filtered through the catch block, which substitutes the
connection-failure message exactly when that raw message contains the
substring fetch. -/
theorem generateAnalysisClient_failure_behavior (baseUrl : String) (o : HttpOutcome)
    (h : isFailureOutcome o = true) :
    exceptIsOk (generateAnalysisClient baseUrl o) = false ∧
    generateAnalysisClient baseUrl o =
      .error (mapClientError baseUrl (rawErrorMessage o)) := by
  cases o with
  | netError msg => exact ⟨rfl, rfl⟩
  | badResponse status statusText body => exact ⟨rfl, rfl⟩
  | okResponse parsed => exact absurd h (by simp [isFailureOutcome])

/-- Witness for Claim C9 at a concrete network failure: a fetch rejection
whose message is the browser's Failed to fetch. -/
theorem generateAnalysisClient_failure_behavior_witness :
    isFailureOutcome (.netError "Failed to fetch") = true ∧
    (exceptIsOk (generateAnalysisClient "http://localhost:8000/api"
        (.netError "Failed to fetch")) = false ∧
     generateAnalysisClient "http://localhost:8000/api" (.netError "Failed to fetch") =
      .error (mapClientError "http://localhost:8000/api"
        (rawErrorMessage (.netError "Failed to fetch")))) :=
  ⟨rfl, generateAnalysisClient_failure_behavior "http://localhost:8000/api"
      (.netError "Failed to fetch") rfl⟩

/-! ### Probability banding stated by the deterministic prompt
(src geminiService, second version, Step 3 of the prompt) -/

/-- Probability bands named by the prompt's strict formula. -/
inductive ProbBand where
  | high
  | medium
  | low
deriving DecidableEq, Repr

/-- promptBandOfCount: the banding formula written into the deterministic
analysis prompt of generateAnalysis (geminiService): more than 4 questions in
the last 7 years is High, 2-3 questions is Medium, fewer than 2 questions is
Low.  A count matched by no clause of the formula is mapped to none. -/
def promptBandOfCount (count : Nat) : Option ProbBand :=
  if 4 < count then some ProbBand.high
  else if 2 ≤ count ∧ count ≤ 3 then some ProbBand.medium
  else if count < 2 then some ProbBand.low
  else none

/-- Claim C2: the banding formula in the deterministic prompt assigns no band
to a count of exactly 4 — the clause for High requires more than 4 and the
clause for Medium stops at 3 — while every other count is banded.  A topic
with 4 occurrences in the window therefore has no documented side of the
high/medium boundary and its placement is left to the model at runtime. -/
theorem promptBandOfCount_gap_at_four :
    promptBandOfCount 4 = none ∧
    promptBandOfCount 5 = some ProbBand.high ∧
    promptBandOfCount 3 = some ProbBand.medium ∧
    promptBandOfCount 2 = some ProbBand.medium ∧
    promptBandOfCount 1 = some ProbBand.low ∧
    promptBandOfCount 0 = some ProbBand.low := by
  decide

/-! ### Output field lists of the response schema
(src geminiService responseSchema, matching the AnalysisResult interface) -/

/-- analysisResultSchemaFields: the property names of the responseSchema
object configured in generateAnalysis (geminiService). -/
def analysisResultSchemaFields : List String :=
  ["yearWiseData", "predictions", "sourceDocuments", "totalQuestionsAnalyzed",
   "mostFrequentTopic"]

/-- analysisResultRequiredFields: the required list of the responseSchema
configured in generateAnalysis (geminiService, lines 228-231). -/
def analysisResultRequiredFields : List String :=
  ["yearWiseData", "predictions", "sourceDocuments", "totalQuestionsAnalyzed",
   "mostFrequentTopic"]

/-- Counterexample to Claim C6: neither the properties nor the required list
of the declared output schema contains a confidenceScore or a dataQuality
field, so an AnalysisResult at the output boundary does not carry them. -/
theorem analysisResult_lacks_confidence_fields :
    analysisResultSchemaFields.contains "confidenceScore" = false ∧
    analysisResultSchemaFields.contains "dataQuality" = false ∧
    analysisResultRequiredFields.contains "confidenceScore" = false ∧
    analysisResultRequiredFields.contains "dataQuality" = false := by
  decide

/-- Claim C6 (amended): every AnalysisResult at the output boundary carries
exactly the five declared fields — yearWiseData, predictions, sourceDocuments,
a totalQuestionsAnalyzed integer and a mostFrequentTopic string, all five
required — and carries no confidenceScore and no dataQuality field. -/
theorem analysisResult_boundary_fields :
    analysisResultRequiredFields = analysisResultSchemaFields ∧
    analysisResultSchemaFields =
      ["yearWiseData", "predictions", "sourceDocuments", "totalQuestionsAnalyzed",
       "mostFrequentTopic"] ∧
    analysisResultSchemaFields.contains "totalQuestionsAnalyzed" = true ∧
    analysisResultSchemaFields.contains "mostFrequentTopic" = true ∧
    analysisResultSchemaFields.contains "confidenceScore" = false ∧
    analysisResultSchemaFields.contains "dataQuality" = false := by
  refine ⟨rfl, rfl, ?_, ?_, ?_, ?_⟩ <;> decide

/-! ### Modelled analytics engine

The Python engine (backend/engine/frequency_analyzer.py,
trend_predictor.py, the confidence scorer and the report assembler behind
the /api/analyze endpoint) belongs to the repository but is not under src/;
the definitions in this section are modelled from the specification. -/

/-- Modelled from the spec: baseline banding of the trend predictor
(backend/engine/trend_predictor.py, not under src/), section 4.3 step 1 —
a pure function of the raw occurrence count within the window: count above 4
gives a high baseline of at least 7/10, counts 2 and 3 interpolate linearly
through the medium band from 4/10 to 69/100, counts below 2 stay below 4/10;
a count of exactly 4 is documented here as the high side of the boundary. -/
def bandedBaseline (count : Nat) : ℚ :=
  if 4 ≤ count then min 1 (7/10 + ((count - 4 : Nat) : ℚ) / 20)
  else if 2 ≤ count then 4/10 + ((count - 2 : Nat) : ℚ) * (29/100)
  else 1/10 + (count : ℚ) * (3/20)

theorem bandedBaseline_nonneg (count : Nat) : 0 ≤ bandedBaseline count := by
  unfold bandedBaseline
  split
  · exact le_min zero_le_one (by positivity)
  · split
    · positivity
    · positivity

theorem bandedBaseline_le_one (count : Nat) : bandedBaseline count ≤ 1 := by
  unfold bandedBaseline
  split
  · exact min_le_left _ _
  · rename_i h4
    split
    · rename_i h2
      have hc : count ≤ 3 := by omega
      have hsub : ((count - 2 : Nat) : ℚ) ≤ 1 := by
        have : count - 2 ≤ 1 := by omega
        exact_mod_cast this
      nlinarith
    · rename_i h2
      have hc : count ≤ 1 := by omega
      have hcast : ((count : ℚ)) ≤ 1 := by exact_mod_cast hc
      nlinarith

/-- Modelled from the spec: gap adjustment of the trend predictor
(backend/engine/trend_predictor.py, not under src/), section 4.3 step 2 —
once the gap since the last appearance reaches the mean inter-appearance
interval, a boost growing with the gap is applied. -/
def gapBoost (gap meanInterval : Nat) : ℚ :=
  if gap < meanInterval then 0 else ((gap + 1 - meanInterval : Nat) : ℚ) / 20

theorem gapBoost_nonneg (gap meanInterval : Nat) : 0 ≤ gapBoost gap meanInterval := by
  unfold gapBoost
  split
  · exact le_refl 0
  · positivity

theorem gapBoost_mono (meanInterval : Nat) {gap gap' : Nat} (h : gap ≤ gap') :
    gapBoost gap meanInterval ≤ gapBoost gap' meanInterval := by
  unfold gapBoost
  by_cases h2 : gap' < meanInterval
  · rw [if_pos (lt_of_le_of_lt h h2), if_pos h2]
  · rw [if_neg h2]
    by_cases h1 : gap < meanInterval
    · rw [if_pos h1]
      positivity
    · rw [if_neg h1]
      have hn : (gap + 1 - meanInterval : Nat) ≤ (gap' + 1 - meanInterval : Nat) := by omega
      have hq : ((gap + 1 - meanInterval : Nat) : ℚ) ≤ ((gap' + 1 - meanInterval : Nat) : ℚ) := by
        exact_mod_cast hn
      exact (div_le_div_iff_of_pos_right (by norm_num)).mpr hq

/-- Modelled from the spec: the gap-adjusted probability
(backend/engine/trend_predictor.py, not under src/) — baseline plus boost,
capped so the adjusted value never exceeds 1. -/
def gapAdjustedProbability (baseline : ℚ) (gap meanInterval : Nat) : ℚ :=
  min 1 (baseline + gapBoost gap meanInterval)

theorem gapAdjustedProbability_le_one (baseline : ℚ) (gap meanInterval : Nat) :
    gapAdjustedProbability baseline gap meanInterval ≤ 1 :=
  min_le_left _ _

theorem gapAdjustedProbability_nonneg {baseline : ℚ} (hb : 0 ≤ baseline)
    (gap meanInterval : Nat) : 0 ≤ gapAdjustedProbability baseline gap meanInterval :=
  le_min zero_le_one (add_nonneg hb (gapBoost_nonneg gap meanInterval))

theorem gapAdjustedProbability_mono (baseline : ℚ) (meanInterval : Nat)
    {gap gap' : Nat} (h : gap ≤ gap') :
    gapAdjustedProbability baseline gap meanInterval ≤
      gapAdjustedProbability baseline gap' meanInterval :=
  min_le_min (le_refl 1) (add_le_add_left (gapBoost_mono meanInterval h) baseline)

/-- Modelled from the spec: the per-year presence transitions of a topic
(backend/engine/trend_predictor.py, not under src/), section 4.3 step 3 —
consecutive pairs of the presence sequence over the observed range. -/
def transitionPairs (presence : List Bool) : List (Bool × Bool) :=
  presence.zip presence.tail

/-- Modelled from the spec: number of transitions from state a to state b in
the presence sequence. -/
def transitionCount (presence : List Bool) (a b : Bool) : Nat :=
  (transitionPairs presence).countP fun x => x.1 == a && x.2 == b

/-- Modelled from the spec: number of transitions leaving state a in the
presence sequence. -/
def transitionsFrom (presence : List Bool) (a : Bool) : Nat :=
  (transitionPairs presence).countP fun x => x.1 == a

theorem transitionCount_le_transitionsFrom (presence : List Bool) (a b : Bool) :
    transitionCount presence a b ≤ transitionsFrom presence a := by
  unfold transitionCount transitionsFrom
  refine List.countP_mono_left ?_
  intro x _ hx
  simp only [Bool.and_eq_true] at hx
  exact hx.1

/-- Modelled from the spec: Beta-prior smoothed transition rate — with a
Beta(1,1) prior, k observed successes out of n trials give (k+1)/(n+2), so
sparse sequences never yield a degenerate 0 or 1 probability. -/
def smoothedRate (k n : Nat) : ℚ := ((k : ℚ) + 1) / ((n : ℚ) + 2)

theorem smoothedRate_nonneg (k n : Nat) : 0 ≤ smoothedRate k n := by
  unfold smoothedRate
  positivity

theorem smoothedRate_le_one {k n : Nat} (h : k ≤ n) : smoothedRate k n ≤ 1 := by
  unfold smoothedRate
  rw [div_le_one (by positivity)]
  have : (k : ℚ) ≤ (n : ℚ) := by exact_mod_cast h
  linarith

/-- Modelled from the spec: one-step-ahead recurrence estimate
(backend/engine/trend_predictor.py, not under src/), section 4.3 step 3 —
the smoothed probability of presence next year given the presence state in
the most recent observed year. -/
def recurrenceEstimate (presence : List Bool) : ℚ :=
  if presence.getLast?.getD false then
    smoothedRate (transitionCount presence true true) (transitionsFrom presence true)
  else
    smoothedRate (transitionCount presence false true) (transitionsFrom presence false)

theorem recurrenceEstimate_nonneg (presence : List Bool) : 0 ≤ recurrenceEstimate presence := by
  unfold recurrenceEstimate
  split
  · exact smoothedRate_nonneg _ _
  · exact smoothedRate_nonneg _ _

theorem recurrenceEstimate_le_one (presence : List Bool) : recurrenceEstimate presence ≤ 1 := by
  unfold recurrenceEstimate
  split
  · exact smoothedRate_le_one (transitionCount_le_transitionsFrom presence true true)
  · exact smoothedRate_le_one (transitionCount_le_transitionsFrom presence false true)

/-- Modelled from the spec: blend weight (backend/engine/trend_predictor.py,
not under src/), section 4.3 step 4 — the weight given to the recurrence
estimate grows with the number of observed years. -/
def blendWeight (observedYears : Nat) : ℚ := (observedYears : ℚ) / ((observedYears : ℚ) + 4)

theorem blendWeight_nonneg (observedYears : Nat) : 0 ≤ blendWeight observedYears := by
  unfold blendWeight
  positivity

theorem blendWeight_le_one (observedYears : Nat) : blendWeight observedYears ≤ 1 := by
  unfold blendWeight
  rw [div_le_one (by positivity)]
  linarith

/-- Modelled from the spec: final predicted probability of a topic
(backend/engine/trend_predictor.py, not under src/), section 4.3 step 4 —
the convex blend of the gap-adjusted banded baseline and the recurrence
estimate, weighted by the amount of observed history. -/
def topicProbability (count gap meanInterval : Nat) (presence : List Bool) : ℚ :=
  (1 - blendWeight presence.length) *
      gapAdjustedProbability (bandedBaseline count) gap meanInterval
    + blendWeight presence.length * recurrenceEstimate presence

/-- Modelled from the spec: confidence scorer
(backend/engine, not under src/), section 4.4 — a bounded monotone
combination of the number of data years, the per-year count variance and the
total volume; zero-question or single-year scopes fall back to a fixed
low-confidence constant instead of dividing by zero. -/
def confidenceScore (dataYears : Nat) (variance : ℚ) (volume : Nat) : ℚ :=
  if dataYears ≤ 1 ∨ volume = 0 then 1/5
  else ((dataYears : ℚ) / ((dataYears : ℚ) + 3)) *
    (((volume : ℚ) / ((volume : ℚ) + 10)) * (1 / (1 + variance)))

/-- Claim C3: for a fixed occurrence count (and fixed recurrence data),
increasing the gap since the topic's last appearance never decreases the
predicted probability, and the gap-adjusted probability never exceeds 1. -/
theorem topicProbability_gap_monotone
    (count gap gap' meanInterval : Nat) (presence : List Bool) (h : gap ≤ gap') :
    topicProbability count gap meanInterval presence ≤
      topicProbability count gap' meanInterval presence ∧
    gapAdjustedProbability (bandedBaseline count) gap meanInterval ≤ 1 := by
  constructor
  · unfold topicProbability
    have hw : 0 ≤ 1 - blendWeight presence.length :=
      sub_nonneg.mpr (blendWeight_le_one presence.length)
    have hmono := gapAdjustedProbability_mono (bandedBaseline count) meanInterval h
    have := mul_le_mul_of_nonneg_left hmono hw
    linarith
  · exact gapAdjustedProbability_le_one _ _ _

/-- Witness for Claim C3 at concrete inputs: count 3, gaps 1 and 3, mean
interval 2, three observed years. -/
theorem topicProbability_gap_monotone_witness :
    1 ≤ 3 ∧
    (topicProbability 3 1 2 [true, false, true] ≤ topicProbability 3 3 2 [true, false, true] ∧
     gapAdjustedProbability (bandedBaseline 3) 1 2 ≤ 1) :=
  ⟨by decide, topicProbability_gap_monotone 3 1 3 2 [true, false, true] (by decide)⟩

/-- Claim C5: the modelled engine keeps every prediction's probability and the
confidence score inside [0, 1] (the wire format scales probabilities to the
0-100 integer range consistently). -/
theorem topicProbability_confidenceScore_bounds
    (count gap meanInterval : Nat) (presence : List Bool)
    (dataYears : Nat) (variance : ℚ) (volume : Nat) (hvar : 0 ≤ variance) :
    0 ≤ topicProbability count gap meanInterval presence ∧
    topicProbability count gap meanInterval presence ≤ 1 ∧
    0 ≤ confidenceScore dataYears variance volume ∧
    confidenceScore dataYears variance volume ≤ 1 := by
  have hw0 := blendWeight_nonneg presence.length
  have hw1 := blendWeight_le_one presence.length
  have ha0 := gapAdjustedProbability_nonneg (bandedBaseline_nonneg count) gap meanInterval
  have ha1 := gapAdjustedProbability_le_one (bandedBaseline count) gap meanInterval
  have hb0 := recurrenceEstimate_nonneg presence
  have hb1 := recurrenceEstimate_le_one presence
  refine ⟨?_, ?_, ?_, ?_⟩
  · unfold topicProbability
    have h1 : 0 ≤ 1 - blendWeight presence.length := by linarith
    nlinarith
  · unfold topicProbability
    nlinarith
  · unfold confidenceScore
    split
    · norm_num
    · positivity
  · unfold confidenceScore
    split
    · norm_num
    · rename_i hcond
      have hy1 : (dataYears : ℚ) / ((dataYears : ℚ) + 3) ≤ 1 := by
        rw [div_le_one (by positivity)]
        linarith
      have hv1 : (volume : ℚ) / ((volume : ℚ) + 10) ≤ 1 := by
        rw [div_le_one (by positivity)]
        linarith
      have hvar1 : 1 / (1 + variance) ≤ 1 := by
        rw [div_le_one (by linarith)]
        linarith
      have hy0 : 0 ≤ (dataYears : ℚ) / ((dataYears : ℚ) + 3) := by positivity
      have hv0 : 0 ≤ (volume : ℚ) / ((volume : ℚ) + 10) := by positivity
      have hvar0 : 0 ≤ 1 / (1 + variance) := by positivity
      have hbc0 : 0 ≤ (volume : ℚ) / ((volume : ℚ) + 10) * (1 / (1 + variance)) :=
        mul_nonneg hv0 hvar0
      nlinarith [mul_le_mul hv1 hvar1 hvar0 (le_of_lt one_pos),
        mul_le_mul hy1 (le_refl ((volume : ℚ) / ((volume : ℚ) + 10) * (1 / (1 + variance)))) hbc0
          (le_of_lt one_pos)]

/-- Witness for Claim C5 at concrete inputs: count 3, gap 2, mean interval 1,
three observed years, variance one half, volume 10. -/
theorem topicProbability_confidenceScore_bounds_witness :
    0 ≤ (1/2 : ℚ) ∧
    (0 ≤ topicProbability 3 2 1 [true, false, true] ∧
     topicProbability 3 2 1 [true, false, true] ≤ 1 ∧
     0 ≤ confidenceScore 3 (1/2) 10 ∧
     confidenceScore 3 (1/2) 10 ≤ 1) :=
  ⟨by norm_num, topicProbability_confidenceScore_bounds 3 2 1 [true, false, true] 3 (1/2) 10
    (by norm_num)⟩

/-! ### Modelled report assembler and prediction ranking -/

/-- Ordering of year-wise rows by calendar year. -/
def yearLe (a b : YearData) : Prop := a.year ≤ b.year

instance : DecidableRel yearLe := fun a b => inferInstanceAs (Decidable (a.year ≤ b.year))

instance : IsTotal YearData yearLe := ⟨fun a b => Int.le_total a.year b.year⟩

instance : IsTrans YearData yearLe := ⟨fun _ _ _ h1 h2 => le_trans h1 h2⟩

/-- Modelled from the spec: the report assembler (backend/engine behind the
/api/analyze endpoint, not under src/), section 4.5 — pure composition that
sorts the year-wise counts ascending by year and sets totalQuestionsAnalyzed
to the sum of the yearly question counts. -/
def assembleReport (yearWise : List YearData) (preds : List TopicPrediction)
    (docs : List SourceDocument) (mft : String) : AnalysisResult :=
  { yearWiseData := List.insertionSort yearLe yearWise
    predictions := preds
    sourceDocuments := docs
    totalQuestionsAnalyzed := (yearWise.map fun d => d.questionCount).sum
    mostFrequentTopic := mft }

/-- Claim C4: in every assembled AnalysisResult the sum of questionCount over
the entries of yearWiseData equals totalQuestionsAnalyzed. -/
theorem assembleReport_sum_invariant (yearWise : List YearData)
    (preds : List TopicPrediction) (docs : List SourceDocument) (mft : String) :
    ((assembleReport yearWise preds docs mft).yearWiseData.map fun d => d.questionCount).sum
      = (assembleReport yearWise preds docs mft).totalQuestionsAnalyzed := by
  have hperm := List.perm_insertionSort yearLe yearWise
  simpa [assembleReport] using (hperm.map fun d => d.questionCount).sum_eq

/-- Claim C7: in every assembled AnalysisResult the yearWiseData list is
ordered ascending by year. -/
theorem assembleReport_yearWise_sorted (yearWise : List YearData)
    (preds : List TopicPrediction) (docs : List SourceDocument) (mft : String) :
    List.Pairwise (fun a b : YearData => a.year ≤ b.year)
      (assembleReport yearWise preds docs mft).yearWiseData :=
  List.sorted_insertionSort yearLe yearWise

/-- Modelled from the spec: the internal scored topic handed to the output
ranking of the trend predictor (backend/engine/trend_predictor.py, not under
src/) — topic label, predicted probability and raw occurrence count. -/
structure ScoredTopic where
  topic : String
  probability : ℚ
  count : Nat
deriving DecidableEq, Repr

/-- rankLe a b holds when a is ranked at or before b: probability descending,
ties broken by raw occurrence count descending, then by topic label in
ascending lexical order. -/
def rankLe (a b : ScoredTopic) : Prop :=
  b.probability < a.probability ∨
    (a.probability = b.probability ∧
      (b.count < a.count ∨ (a.count = b.count ∧ a.topic ≤ b.topic)))

instance : DecidableRel rankLe := fun a b => by
  unfold rankLe
  infer_instance

instance : IsTotal ScoredTopic rankLe := by
  constructor
  intro a b
  rcases lt_trichotomy a.probability b.probability with h | h | h
  · exact Or.inr (Or.inl h)
  · rcases lt_trichotomy a.count b.count with h2 | h2 | h2
    · exact Or.inr (Or.inr ⟨h.symm, Or.inl h2⟩)
    · rcases le_total a.topic b.topic with h3 | h3
      · exact Or.inl (Or.inr ⟨h, Or.inr ⟨h2, h3⟩⟩)
      · exact Or.inr (Or.inr ⟨h.symm, Or.inr ⟨h2.symm, h3⟩⟩)
    · exact Or.inl (Or.inr ⟨h, Or.inl h2⟩)
  · exact Or.inl (Or.inl h)

instance : IsTrans ScoredTopic rankLe := by
  constructor
  intro a b c hab hbc
  rcases hab with h1 | ⟨e1, h1⟩
  · rcases hbc with h2 | ⟨e2, h2⟩
    · exact Or.inl (lt_trans h2 h1)
    · exact Or.inl (by rw [← e2]; exact h1)
  · rcases hbc with h2 | ⟨e2, h2⟩
    · exact Or.inl (by rw [e1]; exact h2)
    · refine Or.inr ⟨e1.trans e2, ?_⟩
      rcases h1 with h1 | ⟨f1, h1⟩
      · rcases h2 with h2 | ⟨f2, h2⟩
        · exact Or.inl (lt_trans h2 h1)
        · exact Or.inl (by rw [← f2]; exact h1)
      · rcases h2 with h2 | ⟨f2, h2⟩
        · exact Or.inl (by rw [f1]; exact h2)
        · exact Or.inr ⟨f1.trans f2, le_trans h1 h2⟩

/-- Modelled from the spec: the output ranking of the trend predictor
(backend/engine/trend_predictor.py, not under src/) — predictions sorted by
the fixed total tie-break order. -/
def rankPredictions (ts : List ScoredTopic) : List ScoredTopic :=
  List.insertionSort rankLe ts

/-- Claim C8: the ranked prediction list is sorted by probability descending
with ties broken by raw occurrence count descending and then by topic label
ascending; the ranking is a permutation of its input and the tie-break
relation is total, so the order is deterministic on every run. -/
theorem rankPredictions_sorted (ts : List ScoredTopic) :
    List.Sorted rankLe (rankPredictions ts) ∧
    List.Perm (rankPredictions ts) ts ∧
    ∀ a b : ScoredTopic, rankLe a b ∨ rankLe b a :=
  ⟨List.sorted_insertionSort rankLe ts, List.perm_insertionSort rankLe ts,
    fun a b => IsTotal.total a b⟩

end ExamTrend
